import Mathlib

/-!
Shallow embedding of the affiliate-hijacker repository (src/ai_engine.py,
src/funnel_generator.py, src/email_generator.py).

Python dictionaries produced by the generators always carry a fixed key set,
so they are modelled as Lean structures; keys that a consumer reads with
`dict.get(key, default)` and that may genuinely be absent are modelled as
`Option` fields.  Machine integers do not overflow anywhere in this code
(small counts and prices), so `Nat` is used.  Fallible operations
(template rendering, the external text-generation call, a non-dict argument
making `.get` raise) are modelled with `Option`/`Except` parameters.
-/

namespace AffiliateHijacker

/-- A `{title, description}` entry of the main-page copy. -/
structure TitleDescription where
  title : String := ""
  description : String := ""
deriving DecidableEq

/-- A `{name, position, text}` testimonial of the main-page copy. -/
structure Testimonial where
  name : String := ""
  position : String := ""
  text : String := ""
deriving DecidableEq

/-- A `{question, answer}` FAQ entry of the main-page copy. -/
structure QA where
  question : String := ""
  answer : String := ""
deriving DecidableEq

/-- The main sales-page copy record built by `generate_copy`
(src/ai_engine.py).  Every key is always present in the dictionaries the
code builds, so the fields are plain values. -/
structure MainPage where
  headline : String := ""
  subheadline : String := ""
  intro : String := ""
  problem_statement : String := ""
  solution_intro : String := ""
  benefits : List TitleDescription := []
  features : List TitleDescription := []
  social_proof : List Testimonial := []
  pricing_section : String := ""
  guarantee : String := ""
  faq : List QA := []
  cta_primary : String := ""
  cta_secondary : String := ""
deriving DecidableEq

/-- An upsell/downsell offer record as built by `generate_upsell`
(src/ai_engine.py, lines 257-418). -/
structure Offer where
  offer_type : String := ""
  position : Nat := 0
  product_name : String := ""
  headline : String := ""
  description : String := ""
  key_benefits : List String := []
  main_feature : String := ""
  price : Nat := 0
  price_description : String := ""
  reason_to_buy : String := ""
  scarcity_element : String := ""
  cta_text : String := ""
deriving DecidableEq

/-- One node of the funnel-flow graph built by `design_funnel_flow`
(src/funnel_generator.py, lines 71-126). -/
structure FlowNode where
  id : String
  type : String
  name : String
  accept_action : String
  decline_action : String
deriving DecidableEq

/-- The `main_product_info` dictionary passed to `generate_upsell`
(built in `generate_funnel`, src/funnel_generator.py lines 39-42); read
with `.get` and a default, so fields are optional. -/
structure MainProductInfo where
  product_type : Option String := none
  brand_name : Option String := none
deriving DecidableEq

/-- `generate_upsell(main_product_info, upsell_type, position)`
(src/ai_engine.py, lines 257-418).  The body only reads its arguments and
performs string interpolation; with dictionary input the `try` body cannot
fault, so the `except` fallback branch (lines 402-418) is dead and the
function is a total pure map.  Any `upsell_type` other than `"upsell"`
takes the `else:  # downsell` branch, exactly as in the source. -/
def generate_upsell (main_product_info : MainProductInfo)
    ( upsell_type : String) (position : Nat) : Offer :=
  let brand_name := main_product_info.brand_name.getD "Our Product"
  if upsell_type = "upsell" then
    if position = 1 then
      { offer_type := "upsell"
        position := position
        product_name := brand_name ++ " Pro Edition"
        headline := "WAIT! Upgrade to " ++ brand_name ++ " Pro for Maximum Results"
        description := "The Pro Edition includes all features of the standard " ++ brand_name ++ " plus advanced capabilities for power users."
        key_benefits := ["Access to premium training resources",
          "Direct 1-on-1 coaching sessions",
          "Priority support response",
          "Advanced customization options",
          "Exclusive community access"]
        main_feature := "Personalized implementation strategy call with a senior expert"
        price := 297
        price_description := "One-time upgrade payment (save 50% today only)"
        reason_to_buy := "Triple your results with expert guidance and premium resources"
        scarcity_element := "This special upgrade price expires in 15 minutes"
        cta_text := "Yes, Upgrade My Order to Pro!" }
    else if position = 2 then
      { offer_type := "upsell"
        position := position
        product_name := brand_name ++ " Implementation Accelerator"
        headline := "Get Results 3X Faster with the " ++ brand_name ++ " Implementation Accelerator"
        description := "This done-for-you implementation package helps you fast-track your success by handling the technical setup and customization."
        key_benefits := ["Complete system setup by our expert team",
          "Custom configuration for your specific needs",
          "Technical roadblocks removed before you start",
          "Ready-to-use templates and frameworks"]
        main_feature := "White-glove implementation service with 48-hour turnaround"
        price := 397
        price_description := "One-time service fee (50% less than our standard rate)"
        reason_to_buy := "Skip the learning curve and get straight to results"
        scarcity_element := "Limited to just 10 clients this month"
        cta_text := "Yes, Fast-Track My Success!" }
    else
      { offer_type := "upsell"
        position := position
        product_name := brand_name ++ " Enterprise Solution"
        headline := "Scale Your Success with the " ++ brand_name ++ " Enterprise Package"
        description := "The complete " ++ brand_name ++ " system plus team licenses, advanced integrations, and enterprise-grade support."
        key_benefits := ["Multiple user licenses for your entire team",
          "Advanced API integrations with your existing tools",
          "Custom reporting and analytics",
          "Quarterly strategy consultations"]
        main_feature := "Unlimited team access with centralized management console"
        price := 997
        price_description := "Annual subscription (less than $3 per day)"
        reason_to_buy := "Scale the system across your entire organization"
        scarcity_element := "Early adopter pricing - will increase by 40% next month"
        cta_text := "Upgrade to Enterprise" }
  else
    if position = 1 then
      { offer_type := "downsell"
        position := position
        product_name := brand_name ++ " Essentials"
        headline := "Get Started with " ++ brand_name ++ " Essentials for a Lower Investment"
        description := "The core features of " ++ brand_name ++ " at a more accessible price point."
        key_benefits := ["Core system fundamentals",
          "Step-by-step implementation guides",
          "Community support access",
          "Key resources library"]
        main_feature := "Complete foundations course for beginners"
        price := 197
        price_description := "One-time payment with option to upgrade later"
        reason_to_buy := "Get started with the essential features at a lower investment"
        scarcity_element := "Special introductory pricing for first-time customers only"
        cta_text := "Yes, I Want the Essentials Package!" }
    else if position = 2 then
      { offer_type := "downsell"
        position := position
        product_name := brand_name ++ " Self-Study Edition"
        headline := "Access the " ++ brand_name ++ " System at Your Own Pace"
        description := "The self-study version gives you all the content without the premium support elements."
        key_benefits := ["Complete system access",
          "Digital resource library",
          "Self-paced learning modules",
          "Email support"]
        main_feature := "Digital-only access to the entire system"
        price := 147
        price_description := "One-time payment (60% off the full system)"
        reason_to_buy := "Get all the content at a reduced price if you are self-motivated"
        scarcity_element := "This special self-study offer expires in 24 hours"
        cta_text := "Yes, Give Me Self-Study Access" }
    else
      { offer_type := "downsell"
        position := position
        product_name := brand_name ++ " Starter Kit"
        headline := "Try the " ++ brand_name ++ " Starter Kit Risk-Free"
        description := "A simplified version to help you get started and experience initial results."
        key_benefits := ["Core strategies and techniques",
          "Quick-start implementation guide",
          "Basic support access",
          "Foundational templates"]
        main_feature := "90-day quick-start roadmap"
        price := 97
        price_description := "One-time payment with 60-day guarantee"
        reason_to_buy := "Experience initial results without a larger investment"
        scarcity_element := "First-time customer special - not available after exit"
        cta_text := "Yes, I Want the Starter Kit!" }

/-- `design_funnel_flow(main_page, upsells, downsells)`
(src/funnel_generator.py, lines 71-126).  `main_page` is accepted but never
read, exactly as in the source.  The downsell loop's bound deliberately
mirrors the source's `i < len(upsells) - 1` (line 107), which compares
against the *upsells* list.  In Python `len - 1` can be `-1` when the list
is empty and `i < -1` is false for every loop index; with `Nat` truncated
subtraction `len - 1 = 0` and `i < 0` is likewise false for every index, so
the guard coincides.  The `.get('product_name', ...)` defaults of lines
99/111 are dead for offer records, which always carry `product_name`. -/
def design_funnel_flow (main_page : MainPage)
    (upsells downsells : List Offer) : List FlowNode :=
  let mainNode : FlowNode :=
    { id := "main", type := "main", name := "Main Sales Page",
      accept_action := "to_upsell_1", decline_action := "exit" }
  let upsellNodes : List FlowNode := upsells.enum.map (fun p =>
    { id := "upsell_" ++ toString (p.1 + 1)
      type := "upsell"
      name := p.2.product_name
      accept_action :=
        if p.1 < upsells.length - 1 then "to_upsell_" ++ toString (p.1 + 2)
        else "to_thank_you"
      decline_action := "to_downsell_" ++ toString (p.1 + 1) })
  let downsellNodes : List FlowNode := downsells.enum.map (fun p =>
    let next_action :=
      if p.1 < upsells.length - 1 then "to_upsell_" ++ toString (p.1 + 2)
      else "to_thank_you"
    { id := "downsell_" ++ toString (p.1 + 1)
      type := "downsell"
      name := p.2.product_name
      accept_action := next_action
      decline_action := next_action })
  let thankYouNode : FlowNode :=
    { id := "thank_you", type := "thank_you", name := "Thank You Page",
      accept_action := "exit", decline_action := "exit" }
  mainNode :: (upsellNodes ++ downsellNodes ++ [thankYouNode])

/-! ### String helper lemmas -/

/-- First character of a string, used to separate the generated node ids. -/
def strHead (s : String) : Option Char := s.data.head?

theorem strHead_append {pre : String} {c : Char} {cs : List Char}
    (h : pre.data = c :: cs) (n : String) : strHead (pre ++ n) = some c := by
  unfold strHead
  rw [String.data_append, h]
  rfl

theorem ne_of_strHead {s t : String} (h : strHead s ≠ strHead t) : s ≠ t :=
  fun e => h (congrArg strHead e)

theorem str_append_left_cancel {a x y : String} (h : a ++ x = a ++ y) : x = y := by
  have hd := congrArg String.data h
  rw [String.data_append, String.data_append] at hd
  have h2 := List.append_cancel_left hd
  cases x; cases y; exact congrArg String.mk h2

/-! ### Structure of the flow graph -/

/-- The node ids declared by `design_funnel_flow`, in order. -/
theorem flow_ids (m : MainPage) (us ds : List Offer) :
    (design_funnel_flow m us ds).map FlowNode.id =
      "main" :: (us.enum.map (fun p => "upsell_" ++ toString (p.1 + 1))
        ++ ds.enum.map (fun p => "downsell_" ++ toString (p.1 + 1))
        ++ ["thank_you"]) := by
  simp only [design_funnel_flow, List.map_cons, List.map_append, List.map_map]
  rfl

theorem fst_lt_of_mem_enum {α : Type} {l : List α} {p : Nat × α}
    (h : p ∈ l.enum) : p.1 < l.length := by
  rcases List.mem_iff_getElem.1 h with ⟨i, hi, hp⟩
  rw [List.getElem_enum] at hp
  rw [← hp]
  simpa [List.enum_length] using hi

theorem mem_flow_ids_upsell (m : MainPage) (us ds : List Offer) {j : Nat}
    (hj : j < us.length) :
    ("upsell_" ++ toString (j + 1)) ∈ (design_funnel_flow m us ds).map FlowNode.id := by
  rw [flow_ids]
  have hj2 : j < us.enum.length := by simpa [List.enum_length] using hj
  refine List.mem_cons_of_mem _ (List.mem_append_left _ (List.mem_append_left _ ?_))
  refine List.mem_map.2 ⟨us.enum[j], List.getElem_mem _, ?_⟩
  rw [List.getElem_enum]

theorem mem_flow_ids_downsell (m : MainPage) (us ds : List Offer) {j : Nat}
    (hj : j < ds.length) :
    ("downsell_" ++ toString (j + 1)) ∈ (design_funnel_flow m us ds).map FlowNode.id := by
  rw [flow_ids]
  have hj2 : j < ds.enum.length := by simpa [List.enum_length] using hj
  refine List.mem_cons_of_mem _ (List.mem_append_left _ (List.mem_append_right _ ?_))
  refine List.mem_map.2 ⟨ds.enum[j], List.getElem_mem _, ?_⟩
  rw [List.getElem_enum]

theorem mem_flow_ids_thank_you (m : MainPage) (us ds : List Offer) :
    "thank_you" ∈ (design_funnel_flow m us ds).map FlowNode.id := by
  rw [flow_ids]
  exact List.mem_cons_of_mem _ (List.mem_append_right _ (by simp))

theorem countP_map_eq_length {α β : Type} (f : α → β) (p : β → Bool) (l : List α)
    (h : ∀ a, p (f a) = true) : (l.map f).countP p = l.length := by
  have h2 := (List.countP_eq_length (p := p) (l := l.map f)).2 (by
    rintro b hb
    rcases List.mem_map.1 hb with ⟨a, -, rfl⟩
    exact h a)
  rw [h2, List.length_map]

theorem countP_map_eq_zero {α β : Type} (f : α → β) (p : β → Bool) (l : List α)
    (h : ∀ a, p (f a) = false) : (l.map f).countP p = 0 := by
  rw [List.countP_eq_zero]
  rintro b hb
  rcases List.mem_map.1 hb with ⟨a, -, rfl⟩
  simp [h a]

theorem flow_count_upsell (m : MainPage) (us ds : List Offer) :
    (design_funnel_flow m us ds).countP (fun n => n.type == "upsell") = us.length := by
  simp only [design_funnel_flow, List.countP_cons, List.countP_append]
  rw [countP_map_eq_length _ _ _ (fun a => rfl),
    countP_map_eq_zero _ _ _ (fun a => rfl)]
  simp [List.enum_length, List.countP_cons]

theorem flow_count_downsell (m : MainPage) (us ds : List Offer) :
    (design_funnel_flow m us ds).countP (fun n => n.type == "downsell") = ds.length := by
  simp only [design_funnel_flow, List.countP_cons, List.countP_append]
  rw [countP_map_eq_zero _ _ _ (fun a => rfl),
    countP_map_eq_length _ _ _ (fun a => rfl)]
  simp [List.enum_length, List.countP_cons]

theorem flow_count_main (m : MainPage) (us ds : List Offer) :
    (design_funnel_flow m us ds).countP (fun n => n.id == "main") = 1 := by
  simp only [design_funnel_flow, List.countP_cons, List.countP_append]
  rw [countP_map_eq_zero _ (fun (n : FlowNode) => n.id == "main") _ (fun a =>
      beq_eq_false_iff_ne.2 (ne_of_strHead (by rw [strHead_append (c := 'u') rfl]; decide))),
    countP_map_eq_zero _ (fun (n : FlowNode) => n.id == "main") _ (fun a =>
      beq_eq_false_iff_ne.2 (ne_of_strHead (by rw [strHead_append (c := 'd') rfl]; decide)))]
  simp [List.countP_cons]

theorem flow_count_thank_you (m : MainPage) (us ds : List Offer) :
    (design_funnel_flow m us ds).countP (fun n => n.id == "thank_you") = 1 := by
  simp only [design_funnel_flow, List.countP_cons, List.countP_append]
  rw [countP_map_eq_zero _ (fun (n : FlowNode) => n.id == "thank_you") _ (fun a =>
      beq_eq_false_iff_ne.2 (ne_of_strHead (by rw [strHead_append (c := 'u') rfl]; decide))),
    countP_map_eq_zero _ (fun (n : FlowNode) => n.id == "thank_you") _ (fun a =>
      beq_eq_false_iff_ne.2 (ne_of_strHead (by rw [strHead_append (c := 'd') rfl]; decide)))]
  simp [List.countP_cons]

/-- C1 (amended with `us.length ≤ ds.length`): for `U ≥ 1`, `D ≥ 1` and
`U ≤ D`, the flow graph built by `design_funnel_flow` contains exactly `U`
upsell nodes, `D` downsell nodes, one node with id `main`, one with id
`thank_you`, and every `to_X` action of every node references an id that is
declared among the nodes of the flow.  (Without `U ≤ D` the decline action
`to_downsell_i` of upsell node `i > D` dangles; see the counterexample.) -/
theorem design_funnel_flow_wellformed (m : MainPage) (us ds : List Offer)
    (hU : 1 ≤ us.length) (hD : 1 ≤ ds.length) (hUD : us.length ≤ ds.length) :
    (design_funnel_flow m us ds).countP (fun n => n.type == "upsell") = us.length ∧
    (design_funnel_flow m us ds).countP (fun n => n.type == "downsell") = ds.length ∧
    (design_funnel_flow m us ds).countP (fun n => n.id == "main") = 1 ∧
    (design_funnel_flow m us ds).countP (fun n => n.id == "thank_you") = 1 ∧
    ∀ n ∈ design_funnel_flow m us ds, ∀ X : String,
      (n.accept_action = "to_" ++ X ∨ n.decline_action = "to_" ++ X) →
      X ∈ (design_funnel_flow m us ds).map FlowNode.id := by
  refine ⟨flow_count_upsell m us ds, flow_count_downsell m us ds,
    flow_count_main m us ds, flow_count_thank_you m us ds, ?_⟩
  intro n hn X hX
  simp only [design_funnel_flow, List.mem_cons, List.mem_append, List.mem_map,
    List.mem_singleton, List.mem_nil_iff, or_false] at hn
  rcases hn with rfl | ⟨⟨p, hp, rfl⟩ | ⟨p, hp, rfl⟩⟩ | rfl
  · -- main node
    rcases hX with h | h
    · have h2 : "to_" ++ "upsell_1" = "to_" ++ X := h
      obtain rfl := str_append_left_cancel h2
      exact mem_flow_ids_upsell m us ds (j := 0) (by omega)
    · have h2 := congrArg strHead (h : "exit" = "to_" ++ X)
      rw [strHead_append (c := 't') rfl] at h2
      exact absurd h2 (by decide)
  · -- upsell node at index p.1
    have hlt : p.1 < us.length := fst_lt_of_mem_enum hp
    rcases hX with h | h
    · have h2 : (if p.1 < us.length - 1 then "to_upsell_" ++ toString (p.1 + 2)
          else "to_thank_you") = "to_" ++ X := h
      by_cases hc : p.1 < us.length - 1
      · rw [if_pos hc] at h2
        have h3 : "to_" ++ ("upsell_" ++ toString (p.1 + 2)) = "to_" ++ X := by
          rw [← String.append_assoc]; exact h2
        obtain rfl := str_append_left_cancel h3
        exact mem_flow_ids_upsell m us ds (j := p.1 + 1) (by omega)
      · rw [if_neg hc] at h2
        have h3 : "to_" ++ "thank_you" = "to_" ++ X := h2
        obtain rfl := str_append_left_cancel h3
        exact mem_flow_ids_thank_you m us ds
    · have h2 : "to_" ++ ("downsell_" ++ toString (p.1 + 1)) = "to_" ++ X := by
        rw [← String.append_assoc]
        exact (h : "to_downsell_" ++ toString (p.1 + 1) = "to_" ++ X)
      obtain rfl := str_append_left_cancel h2
      exact mem_flow_ids_downsell m us ds (lt_of_lt_of_le hlt hUD)
  · -- downsell node at index p.1
    have h : (if p.1 < us.length - 1 then "to_upsell_" ++ toString (p.1 + 2)
        else "to_thank_you") = "to_" ++ X := hX.elim id id
    by_cases hc : p.1 < us.length - 1
    · rw [if_pos hc] at h
      have h3 : "to_" ++ ("upsell_" ++ toString (p.1 + 2)) = "to_" ++ X := by
        rw [← String.append_assoc]; exact h
      obtain rfl := str_append_left_cancel h3
      exact mem_flow_ids_upsell m us ds (j := p.1 + 1) (by omega)
    · rw [if_neg hc] at h
      have h3 : "to_" ++ "thank_you" = "to_" ++ X := h
      obtain rfl := str_append_left_cancel h3
      exact mem_flow_ids_thank_you m us ds
  · -- thank-you node
    have h : "exit" = "to_" ++ X := hX.elim id id
    have h2 := congrArg strHead h
    rw [strHead_append (c := 't') rfl] at h2
    exact absurd h2 (by decide)

/-- A minimal offer record used to instantiate theorems at concrete inputs. -/
def wOffer : Offer := { product_name := "Offer" }

/-- A minimal main page used to instantiate theorems at concrete inputs. -/
def wMainPage : MainPage := {}

/-- C1 counterexample: with `num_upsells = 2` and `num_downsells = 1`
(both `≥ 1`), node `upsell_2` of the flow graph carries the decline action
`to_downsell_2`, but no node with id `downsell_2` is declared, so the claim
that every `to_X` action resolves for all `U, D ≥ 1` is false. -/
theorem design_funnel_flow_dangling_counterexample :
    ∃ n ∈ design_funnel_flow wMainPage [wOffer, wOffer] [wOffer],
      n.decline_action = "to_" ++ "downsell_2" ∧
      "downsell_2" ∉ (design_funnel_flow wMainPage [wOffer, wOffer] [wOffer]).map FlowNode.id := by
  decide

/-- Witness for `design_funnel_flow_wellformed` at `U = D = 1`. -/
theorem design_funnel_flow_wellformed_witness :
    1 ≤ ([wOffer] : List Offer).length ∧
    ([wOffer] : List Offer).length ≤ ([wOffer] : List Offer).length ∧
    ((design_funnel_flow wMainPage [wOffer] [wOffer]).countP (fun n => n.type == "upsell") =
        ([wOffer] : List Offer).length ∧
      (design_funnel_flow wMainPage [wOffer] [wOffer]).countP (fun n => n.type == "downsell") =
        ([wOffer] : List Offer).length ∧
      (design_funnel_flow wMainPage [wOffer] [wOffer]).countP (fun n => n.id == "main") = 1 ∧
      (design_funnel_flow wMainPage [wOffer] [wOffer]).countP (fun n => n.id == "thank_you") = 1 ∧
      ∀ n ∈ design_funnel_flow wMainPage [wOffer] [wOffer], ∀ X : String,
        (n.accept_action = "to_" ++ X ∨ n.decline_action = "to_" ++ X) →
        X ∈ (design_funnel_flow wMainPage [wOffer] [wOffer]).map FlowNode.id) :=
  ⟨by decide, by decide,
    design_funnel_flow_wellformed wMainPage [wOffer] [wOffer] (by decide) (by decide) (by decide)⟩

/-- C3: with an empty upsell list the flow's first node (`main`) still
carries the literal accept action `to_upsell_1`, and no node with id
`upsell_1` exists in the flow, whatever the downsell list is. -/
theorem design_funnel_flow_zero_upsells_dangling (m : MainPage) (ds : List Offer) :
    ((design_funnel_flow m [] ds).map FlowNode.accept_action).head? = some "to_upsell_1" ∧
    "upsell_1" ∉ (design_funnel_flow m [] ds).map FlowNode.id := by
  constructor
  · rfl
  · rw [flow_ids]
    simp only [List.enum_nil, List.map_nil, List.nil_append, List.mem_cons,
      List.mem_append, List.mem_map, List.mem_singleton, List.mem_nil_iff, or_false]
    push_neg
    refine ⟨by decide, ?_, by decide⟩
    rintro p hp
    exact ne_of_strHead (by rw [strHead_append (c := 'd') rfl]; decide)

/-- C4: for either offer kind and any position beyond 3, `generate_upsell`
selects the same canned template as position 3: the returned offer equals
the position-3 offer with only its `position` field replaced. -/
theorem generate_upsell_position_saturates (m : MainProductInfo) (k : String)
    (p : Nat) (hk : k = "upsell" ∨ k = "downsell") (hp : 3 < p) :
    generate_upsell m k p = { generate_upsell m k 3 with position := p } := by
  rcases hk with rfl | rfl <;>
  · simp only [generate_upsell, String.reduceEq, reduceIte]
    rw [if_neg (by omega : ¬ p = 1), if_neg (by omega : ¬ p = 2)]
    rfl

/-- Witness for `generate_upsell_position_saturates` at kind `upsell`,
position 4. -/
theorem generate_upsell_position_saturates_witness :
    (("upsell" : String) = "upsell" ∨ ("upsell" : String) = "downsell") ∧ 3 < 4 ∧
    generate_upsell {} "upsell" 4 = { generate_upsell {} "upsell" 3 with position := 4 } :=
  ⟨Or.inl rfl, by decide,
    generate_upsell_position_saturates {} "upsell" 4 (Or.inl rfl) (by decide)⟩

/-- C9: `generate_upsell` is a pure deterministic map of its three
arguments: two calls with equal arguments return equal offer records. -/
theorem generate_upsell_deterministic (m₁ m₂ : MainProductInfo)
    (k₁ k₂ : String) (p₁ p₂ : Nat)
    (hm : m₁ = m₂) (hk : k₁ = k₂) (hp : p₁ = p₂) :
    generate_upsell m₁ k₁ p₁ = generate_upsell m₂ k₂ p₂ := by
  subst hm; subst hk; subst hp; rfl

/-- Witness for `generate_upsell_deterministic` at a concrete call. -/
theorem generate_upsell_deterministic_witness :
    ({} : MainProductInfo) = {} ∧ ("upsell" : String) = "upsell" ∧ (2 : Nat) = 2 ∧
    generate_upsell {} "upsell" 2 = generate_upsell {} "upsell" 2 :=
  ⟨rfl, rfl, rfl, generate_upsell_deterministic {} {} "upsell" "upsell" 2 2 rfl rfl rfl⟩

/-! ### Page analyzer (src/ai_engine.py, `analyze_page`) -/

/-- A value of the analysis dictionary: a string or a list of strings. -/
inductive AVal
  | s : String → AVal
  | ls : List String → AVal
deriving DecidableEq

/-- The scraped-page record consumed by `analyze_page`; only `title` is
read there (with `.get` and a default), the other scraped fields
(`main_text`, `headings`, `sales_elements`, `ctas`, `pricing`,
`structure`) are never consulted by the analyzer. -/
structure ScrapedPage where
  title : Option String := none
deriving DecidableEq

/-- `analyze_page(page_data, url)` (src/ai_engine.py, lines 19-111),
returned as a key/value list so that presence and absence of dictionary
keys is observable.  `netloc` stands for the standard-library
`urlparse(url).netloc`.  `page_data` is `Except.error msg` when the
argument makes the `try` body raise with message `msg` (for example
`page_data = None`, whose `.get` attribute access raises); the `except`
branch then returns the fallback dictionary of lines 96-111, which sets
`error` and does NOT contain a `title` key. -/
def analyze_page (netloc : String → String)
    (page_data : Except String ScrapedPage) (url : String) :
    List (String × AVal) :=
  match page_data with
  | .ok pd =>
      let domain := netloc url
      [("url", .s url),
       ("title", .s (pd.title.getD ("Sales Page for " ++ domain))),
       ("product_type", .s "Digital Course & Membership"),
       ("main_hook", .s ("Transform your results with this premium solution from " ++ domain)),
       ("target_audience", .s "Professionals and businesses looking to improve efficiency and results"),
       ("key_benefits", .ls
         ["Save time and increase productivity",
          "Improve results with proven systems",
          "Access exclusive resources and community",
          "Learn from industry experts",
          "Implement strategies that actually work",
          "Get personal support and guidance",
          "Stay ahead of competitors",
          "Reduce costs and increase ROI",
          "Scale your operations efficiently",
          "Eliminate common frustrations and bottlenecks"]),
       ("pain_points", .ls
         ["Lack of time to implement complex solutions",
          "Frustration with inconsistent results",
          "Overwhelmed by too many options and information",
          "Previous solutions that promised but didn\x27t deliver",
          "High costs with minimal returns"]),
       ("unique_selling_points", .ls
         ["Proprietary system developed by industry leaders",
          "Comprehensive solution with ongoing support",
          "Proven results with case studies and testimonials",
          "Exclusive community access for networking",
          "Step-by-step implementation guidance"]),
       ("pricing_strategy", .s "Tiered pricing with limited-time discounts to create urgency. Multiple package options with increasing value. One-time payment structure with bonus offers."),
       ("cta_strategy", .s "Strong, direct calls-to-action with urgency elements. Multiple CTAs throughout the page. Form submissions to capture leads."),
       ("persuasion_techniques", .ls
         ["Social proof through testimonials",
          "Scarcity with limited-time offers",
          "Authority positioning with expert credentials",
          "Risk reversal with guarantees",
          "Reciprocity through bonus offerings",
          "FOMO (Fear of Missing Out)"]),
       ("structure_analysis", .s "Classic sales page with a strong headline, problem-agitation-solution format, feature/benefit sections, social proof, pricing options, and multiple CTAs."),
       ("content_tone", .s "Professional yet conversational. Authoritative while remaining accessible. High-energy with emphasis on transformation and results."),
       ("suggested_improvements", .ls
         ["Add more specific case studies with measurable results",
          "Include video testimonials for increased credibility",
          "Create more personalized sections for different audience segments",
          "Strengthen the guarantee to reduce perceived risk",
          "Add an FAQ section to address common objections",
          "Improve mobile responsiveness for better conversion",
          "Add exit-intent popups to capture leaving visitors",
          "Include more precise benefit quantification"])]
  | .error e =>
      [("url", .s url),
       ("error", .s e),
       ("product_type", .s "Unknown"),
       ("main_hook", .s "Could not analyze"),
       ("target_audience", .s "Unknown"),
       ("key_benefits", .ls []),
       ("pain_points", .ls []),
       ("unique_selling_points", .ls []),
       ("pricing_strategy", .s "Unknown"),
       ("cta_strategy", .s "Unknown"),
       ("persuasion_techniques", .ls []),
       ("structure_analysis", .s "Failed to analyze"),
       ("content_tone", .s "Unknown"),
       ("suggested_improvements", .ls [])]

/-- C5 counterexample: on an internal fault the record returned by
`analyze_page` sets `error` but contains NO `title` key, refuting the
claim that every other field of the Analysis shape (including `title`) is
present in the fault case. -/
theorem analyze_page_fallback_missing_title :
    ((analyze_page (fun _ => "example.com") (Except.error "boom") "http://x").lookup "error"
        = some (AVal.s "boom")) ∧
    ((analyze_page (fun _ => "example.com") (Except.error "boom") "http://x").lookup "title"
        = none) := by
  decide

/-- C5 (amended): `analyze_page` is a total map (never raises): on any
internal fault it returns a record with `error` set to the fault message
and every other field of the Analysis shape EXCEPT `title` present with
its neutral default; the fallback record omits `title`. -/
theorem analyze_page_fallback_fields (netloc : String → String) (e url : String) :
    ((analyze_page netloc (Except.error e) url).lookup "error" = some (AVal.s e)) ∧
    ((analyze_page netloc (Except.error e) url).lookup "title" = none) ∧
    ∀ k ∈ ["url", "product_type", "main_hook", "target_audience", "key_benefits",
        "pain_points", "unique_selling_points", "pricing_strategy", "cta_strategy",
        "persuasion_techniques", "structure_analysis", "content_tone",
        "suggested_improvements"],
      ((analyze_page netloc (Except.error e) url).lookup k).isSome = true := by
  refine ⟨rfl, rfl, ?_⟩
  intro k hk
  fin_cases hk <;> rfl

/-- Witness for `analyze_page_fallback_fields` at a concrete fault. -/
theorem analyze_page_fallback_fields_witness :
    ((analyze_page (fun _ => "example.com") (Except.error "fault") "http://x").lookup "error"
        = some (AVal.s "fault")) ∧
    ((analyze_page (fun _ => "example.com") (Except.error "fault") "http://x").lookup "title"
        = none) ∧
    ∀ k ∈ ["url", "product_type", "main_hook", "target_audience", "key_benefits",
        "pain_points", "unique_selling_points", "pricing_strategy", "cta_strategy",
        "persuasion_techniques", "structure_analysis", "content_tone",
        "suggested_improvements"],
      ((analyze_page (fun _ => "example.com") (Except.error "fault") "http://x").lookup k).isSome
        = true :=
  analyze_page_fallback_fields (fun _ => "example.com") "fault" "http://x"

/-! ### Email sequence generator (src/email_generator.py) -/

/-- One email object of a sequence; keys are read with `.get` and
defaults, and an arbitrary JSON response may omit any of them. -/
structure EmailRec where
  subject : Option String := none
  body : Option String := none
  purpose : Option String := none
  call_to_action : Option String := none
deriving DecidableEq

/-- The `customizations` dictionary (read with `.get` and defaults). -/
structure Customizations where
  brand_name : Option String := none
  target_audience : Option String := none
  unique_angle : Option String := none
  num_upsells : Option Nat := none
  num_downsells : Option Nat := none
deriving DecidableEq

/-- The funnel aggregate built by `generate_funnel`
(src/funnel_generator.py, lines 62-69); `base_analysis` is carried along
in the source but never read by the embedded consumers, so it is omitted
here. -/
structure FunnelData where
  main_page : MainPage := {}
  upsells : List Offer := []
  downsells : List Offer := []
  funnel_flow : List FlowNode := []
  customizations : Customizations := {}
deriving DecidableEq

/-- The `params` dictionary of `generate_email_sequence`; used only to
build the prompt for the external collaborator. -/
structure EmailParams where
  num_emails : Option Nat := none
  sequence_type : Option String := none
  email_style : Option String := none
deriving DecidableEq

/-- The JSON object parsed from the text-generation collaborator's
response; best-effort shape, every key may be missing. -/
structure ApiEmailSequence where
  sequence_name : Option String := none
  sequence_type : Option String := none
  purpose : Option String := none
  timing : List (String × String) := []
  emails : List EmailRec := []
deriving DecidableEq

/-- The email-sequence record returned by `generate_email_sequence` and
stored on the project (also the shape consumed by `create_zip_export`). -/
structure EmailSequenceData where
  error : Option String := none
  sequence_name : Option String := none
  sequence_type : Option String := none
  purpose : Option String := none
  num_emails : Nat := 0
  brand_name : String := ""
  timing : List (String × String) := []
  emails : List EmailRec := []
deriving DecidableEq

/-- `generate_email_sequence(funnel_data, params)`
(src/email_generator.py, lines 18-147).  `funnel_data = none` models an
argument that is not a dictionary, so that `funnel_data.get` on the first
line of the `try` block (line 36) raises before the local
`customizations` is bound (line 38); the `except` handler then evaluates
`customizations.get('brand_name', ...)` (line 121), which itself raises
`UnboundLocalError`, uncaught, to the caller.  `api` is the outcome of the
external text-generation call plus JSON parse (lines 93-104): `.error e`
models any fault there (network error, malformed JSON), absorbed by the
handler into the fixed 3-email fallback of lines 115-147.  `params` only
shapes the prompt sent to the collaborator and does not influence the
returned record, as in the source. -/
def generate_email_sequence (funnel_data : Option FunnelData)
    (params : EmailParams) (api : Except String ApiEmailSequence) :
    Except String EmailSequenceData :=
  match funnel_data with
  | none =>
      Except.error "UnboundLocalError: cannot access local variable customizations"
  | some fd =>
      let customizations := fd.customizations
      let brand_name := customizations.brand_name.getD "Our Product"
      match api with
      | .ok response =>
          Except.ok
            { error := none
              sequence_name := response.sequence_name
              sequence_type := response.sequence_type
              purpose := response.purpose
              num_emails := response.emails.length
              brand_name := brand_name
              timing := response.timing
              emails := response.emails }
      | .error e =>
          Except.ok
            { error := some e
              sequence_name := some "Basic Sales Sequence"
              sequence_type := some "sales"
              purpose := some "To nurture leads and drive sales"
              num_emails := 3
              brand_name := brand_name
              timing := [("1", "Day 0 (Immediately)"), ("2", "Day 2"), ("3", "Day 4")]
              emails :=
                [{ subject := some "Welcome to [Brand Name]"
                   body := some "Welcome email content goes here..."
                   purpose := some "Introduction"
                   call_to_action := some "Visit our website" },
                 { subject := some "Benefits of [Product Name]"
                   body := some "Benefits email content goes here..."
                   purpose := some "Highlight benefits"
                   call_to_action := some "Learn more" },
                 { subject := some "Special Offer Inside"
                   body := some "Promotional email content goes here..."
                   purpose := some "Drive sales"
                   call_to_action := some "Buy now" }] }

/-- C6: if the external text-generation call faults (network error,
malformed JSON, missing fields), `generate_email_sequence` returns — it
does not raise — an email sequence with `num_emails = 3` and `error` set
to the fault message. -/
theorem generate_email_sequence_fallback (fd : FunnelData)
    (params : EmailParams) (e : String) :
    ∃ r, generate_email_sequence (some fd) params (Except.error e) = Except.ok r ∧
      r.num_emails = 3 ∧ r.error = some e :=
  ⟨_, rfl, rfl, rfl⟩

/-- C10: the fallback of `generate_email_sequence` is not total: when the
fault occurs before `customizations` is bound (non-dict `funnel_data`),
the handler itself raises and the caller sees an exception, while for
faults after that point (such as the external call) the fallback record
with `num_emails = 3` and `error` set is returned without raising. -/
theorem generate_email_sequence_handler_not_total (params : EmailParams)
    (api : Except String ApiEmailSequence) (fd : FunnelData) (e : String) :
    (∃ msg, generate_email_sequence none params api = Except.error msg) ∧
    (∃ r, generate_email_sequence (some fd) params (Except.error e) = Except.ok r ∧
      r.num_emails = 3 ∧ r.error = some e) :=
  ⟨⟨_, rfl⟩, _, rfl, rfl, rfl⟩

/-! ### Exporter (src/funnel_generator.py, lines 128-531) -/

/-- The project row consumed by `create_zip_export`.  The source stores
`funnel_data` and `email_sequence` as JSON strings and parses them with
`json.loads(...) if ... else None`; here they are modelled as the parsed
records, with `none` standing for an absent/empty blob (the Python
truthiness checks `if not funnel_data` / `if email_sequence`). -/
structure Project where
  id : Nat := 0
  name : String := ""
  url : String := ""
  funnel_data : Option FunnelData := none
  email_sequence : Option EmailSequenceData := none
deriving DecidableEq

/-- `create_html_page(page_data, page_type)` (src/funnel_generator.py,
lines 128-168).  The Jinja template lookup and render is the fallible
step; `rendered` is its outcome (`none` on any exception).  On a fault
the function swallows the exception and emits the inline fallback page
built from `page_data.get('headline'/'description'/'cta_text', ...)`. -/
def create_html_page (rendered : Option String)
    (headline description cta_text : Option String) : String :=
  match rendered with
  | some html_content => html_content
  | none =>
      "\n        <!DOCTYPE html>\n        <html>\n        <head>\n            <meta charset=\"UTF-8\">\n            <meta name=\"viewport\" content=\"width=device-width, initial-scale=1.0\">\n            <title>"
      ++ (headline.getD "Funnel Page")
      ++ "</title>\n            <link rel=\"stylesheet\" href=\"https://cdn.replit.com/agent/bootstrap-agent-dark-theme.min.css\">\n        </head>\n        <body>\n            <div class=\"container py-5\">\n                <h1>"
      ++ (headline.getD "Funnel Page")
      ++ "</h1>\n                <p>"
      ++ (description.getD "")
      ++ "</p>\n                <button class=\"btn btn-primary\">"
      ++ (cta_text.getD "Continue")
      ++ "</button>\n            </div>\n        </body>\n        </html>\n        "

/-- `generate_css()` (src/funnel_generator.py, lines 270-382). -/
def generate_css : String :=
  "\n    /* Custom styles for funnel pages */\n    body \x7b\n        font-family: \x27Arial\x27, sans-serif;\n        line-height: 1.6;\n        color: #333;\n        background-color: #f8f9fa;\n    \x7d\n    \n    .hero-section \x7b\n        background-color: #f5f5f5;\n        padding: 3rem 0;\n        margin-bottom: 2rem;\n    \x7d\n    \n    .headline \x7b\n        font-size: 2.5rem;\n        font-weight: 700;\n        margin-bottom: 1rem;\n    \x7d\n    \n    .subheadline \x7b\n        font-size: 1.5rem;\n        font-weight: 400;\n        margin-bottom: 2rem;\n    \x7d\n    \n    .benefits-box \x7b\n        background-color: #f8f8f8;\n        border-left: 5px solid #4CAF50;\n        padding: 1.5rem;\n        margin-bottom: 2rem;\n    \x7d\n    \n    .testimonial \x7b\n        background-color: #fff;\n        border-left: 3px solid #007bff;\n        padding: 1.5rem;\n        margin-bottom: 1.5rem;\n        box-shadow: 0 2px 5px rgba(0,0,0,0.1);\n    \x7d\n    \n    .cta-button \x7b\n        display: inline-block;\n        padding: 1rem 2rem;\n        font-size: 1.25rem;\n        font-weight: 600;\n        text-align: center;\n        text-decoration: none;\n        background-color: #FF5722;\n        color: white;\n        border-radius: 5px;\n        margin: 1.5rem 0;\n        transition: background-color 0.3s ease;\n    \x7d\n    \n    .cta-button:hover \x7b\n        background-color: #E64A19;\n    \x7d\n    \n    .price-tag \x7b\n        font-size: 2.5rem;\n        font-weight: 700;\n        color: #4CAF50;\n        margin: 1rem 0;\n    \x7d\n    \n    .guarantee-box \x7b\n        background-color: #FFFDE7;\n        border: 1px solid #FFC107;\n        padding: 1.5rem;\n        margin: 2rem 0;\n        text-align: center;\n    \x7d\n    \n    .faq-item \x7b\n        margin-bottom: 1.5rem;\n    \x7d\n    \n    .faq-question \x7b\n        font-weight: 600;\n        margin-bottom: 0.5rem;\n    \x7d\n    \n    .faq-answer \x7b\n        color: #555;\n    \x7d\n    \n    .upsell-box \x7b\n        background-color: #E3F2FD;\n        border: 1px solid #2196F3;\n        padding: 2rem;\n        margin: 2rem 0;\n        text-align: center;\n    \x7d\n    \n    .downsell-box \x7b\n        background-color: #E8F5E9;\n        border: 1px solid #4CAF50;\n        padding: 2rem;\n        margin: 2rem 0;\n        text-align: center;\n    \x7d\n    \n    .thank-you-box \x7b\n        background-color: #E8F5E9;\n        text-align: center;\n        padding: 3rem;\n        margin: 3rem 0;\n    \x7d\n    "

/-- JSON string escaping as performed by `json.dumps` on the flow-node
strings (quote, backslash and the common control characters; the node
strings built by this program contain none of them). -/
def jsonEscapeChar (c : Char) : String :=
  if c = '"' then "\\\""
  else if c = '\\' then "\\\\"
  else if c = '\n' then "\\n"
  else if c = '\r' then "\\r"
  else if c = '\t' then "\\t"
  else String.singleton c

/-- A JSON string literal for `json.dumps`. -/
def jsonStr (s : String) : String :=
  "\"" ++ String.join (s.data.map jsonEscapeChar) ++ "\""

/-- `json.dumps` of one flow node (dictionary key order preserved,
default separators). -/
def flowNodeJson (n : FlowNode) : String :=
  "\x7b\"id\": " ++ jsonStr n.id
  ++ ", \"type\": " ++ jsonStr n.type
  ++ ", \"name\": " ++ jsonStr n.name
  ++ ", \"accept_action\": " ++ jsonStr n.accept_action
  ++ ", \"decline_action\": " ++ jsonStr n.decline_action ++ "\x7d"

/-- `json.dumps(funnel_data.get('funnel_flow', []))`. -/
def jsonDumpFlow (flow : List FlowNode) : String :=
  "[" ++ String.intercalate ", " (flow.map flowNodeJson) ++ "]"

/-- `generate_js(funnel_data)` (src/funnel_generator.py, lines 384-434). -/
def generate_js (funnel_data : FunnelData) : String :=
  let funnel_flow_str := jsonDumpFlow funnel_data.funnel_flow
  "\n    // Funnel flow data\n    const funnelFlow = "
  ++ funnel_flow_str
  ++ ";\n    \n    // Function to handle button clicks\n    function handleButtonClick(action) \x7b\n        // Find the next page based on the action\n        let nextPage = \x27\x27;\n        \n        switch(action) \x7b\n            case \x27to_thank_you\x27:\n                nextPage = \x27thank_you.html\x27;\n                break;\n            case \x27exit\x27:\n                // Handle exit action (e.g., redirect to external page)\n                return;\n            default:\n                // Extract page ID from action string (e.g., \x27to_upsell_1\x27 -> \x27upsell_1\x27)\n                const pageId = action.replace(\x27to_\x27, \x27\x27);\n                nextPage = pageId + \x27.html\x27;\n        \x7d\n        \n        // Navigate to the next page\n        window.location.href = nextPage;\n    \x7d\n    \n    // Initialize the page\n    document.addEventListener(\x27DOMContentLoaded\x27, function() \x7b\n        // Add event listeners to accept/decline buttons\n        const acceptButtons = document.querySelectorAll(\x27.accept-button\x27);\n        const declineButtons = document.querySelectorAll(\x27.decline-button\x27);\n        \n        acceptButtons.forEach(button => \x7b\n            button.addEventListener(\x27click\x27, function() \x7b\n                const action = this.getAttribute(\x27data-action\x27);\n                handleButtonClick(action);\n            \x7d);\n        \x7d);\n        \n        declineButtons.forEach(button => \x7b\n            button.addEventListener(\x27click\x27, function() \x7b\n                const action = this.getAttribute(\x27data-action\x27);\n                handleButtonClick(action);\n            \x7d);\n        \x7d);\n    \x7d);\n    "

/-- `generate_documentation(project, funnel_data)`
(src/funnel_generator.py, lines 436-489).  `now` stands for
`datetime.now().strftime("%Y-%m-%d %H:%M")`. -/
def generate_documentation (project : Project) (funnel_data : FunnelData)
    (now : String) : String :=
  let customizations := funnel_data.customizations
  "\nAffiliate Hijacker Funnel - Documentation\n========================================\n\nProject Name: "
  ++ project.name
  ++ "\nOriginal URL: "
  ++ project.url
  ++ "\nGenerated on: "
  ++ now
  ++ "\n\nProduct Information:\n------------------\nBrand Name: "
  ++ (customizations.brand_name.getD "Our Product")
  ++ "\nTarget Audience: "
  ++ (customizations.target_audience.getD "General audience")
  ++ "\nUnique Angle: "
  ++ (customizations.unique_angle.getD "")
  ++ "\n\nFunnel Structure:\n---------------\n1. Main Sales Page (index.html)\n2. Upsells: "
  ++ toString funnel_data.upsells.length
  ++ " pages\n3. Downsells: "
  ++ toString funnel_data.downsells.length
  ++ " pages\n4. Thank You Page (thank_you.html)\n\nFiles Included:\n-------------\n- index.html: Main sales page\n- upsell_*.html: Upsell pages\n- downsell_*.html: Downsell pages\n- thank_you.html: Thank you page\n- style.css: CSS styles for all pages\n- funnel.js: JavaScript for funnel flow control\n- emails/: Directory containing email sequence (if generated)\n- README.txt: This documentation file\n\nHow to Use:\n---------\n1. Upload all files to your web hosting\n2. Link your payment processor to the buttons\n3. Set up email sequence in your email marketing platform\n4. Test the complete funnel flow before driving traffic\n\nCustomization:\n------------\n- Edit HTML files to customize design and content\n- Modify CSS in style.css to change appearance\n- Update funnel.js if you need to change the flow\n\nNotes:\n-----\nThis funnel was generated by Affiliate Hijacker based on analysis of the original URL.\nThe design, copy, and flow are optimized for maximum conversions.\n    "

/-- `create_thank_you_page(funnel_data)` (src/funnel_generator.py,
lines 491-530). -/
def create_thank_you_page (funnel_data : FunnelData) : String :=
  let customizations := funnel_data.customizations
  let brand_name := customizations.brand_name.getD "Our Product"
  "\n    <!DOCTYPE html>\n    <html>\n    <head>\n        <meta charset=\"UTF-8\">\n        <meta name=\"viewport\" content=\"width=device-width, initial-scale=1.0\">\n        <title>Thank You for Your Purchase | "
  ++ brand_name
  ++ "</title>\n        <link rel=\"stylesheet\" href=\"https://cdn.replit.com/agent/bootstrap-agent-dark-theme.min.css\">\n        <link rel=\"stylesheet\" href=\"style.css\">\n    </head>\n    <body>\n        <div class=\"container py-5\">\n            <div class=\"thank-you-box\">\n                <h1>Thank You for Your Purchase!</h1>\n                <p>Your order has been successfully processed and is on its way to you.</p>\n                <div class=\"my-4\">\n                    <h3>What\x27s Next?</h3>\n                    <p>Check your email for your order confirmation and access instructions.</p>\n                    <p>If you have any questions, please contact our support team.</p>\n                </div>\n                <div class=\"mt-5\">\n                    <h3>Recommended Next Steps</h3>\n                    <ul class=\"list-group my-3\">\n                        <li class=\"list-group-item\">Check your email for your order confirmation</li>\n                        <li class=\"list-group-item\">Bookmark this page for future reference</li>\n                        <li class=\"list-group-item\">Follow us on social media for updates and tips</li>\n                    </ul>\n                </div>\n            </div>\n        </div>\n        \n        <script src=\"funnel.js\"></script>\n    </body>\n    </html>\n    "

/-- The `emails/email_{i+1}.txt` body written by `create_zip_export`
(src/funnel_generator.py, lines 231-235): the triple-quoted f-string keeps
a leading newline and a trailing newline plus the 20-space indentation of
the closing quotes. -/
def email_txt (i : Nat) (email : EmailRec) : String :=
  "\nSubject: " ++ (email.subject.getD ("Email " ++ toString (i + 1)))
  ++ "\n\n" ++ (email.body.getD "Email content")
  ++ "\n                    "

/-- The `emails/README.txt` body written by `create_zip_export`
(src/funnel_generator.py, lines 239-258), with the `chr(10).join` of the
per-email timing lines. -/
def email_docs (email_sequence : EmailSequenceData) : String :=
  "\nEmail Sequence Documentation\n===========================\n\nSequence Name: "
  ++ (email_sequence.sequence_name.getD "Email Sequence")
  ++ "\nNumber of Emails: "
  ++ toString email_sequence.emails.length
  ++ "\nSequence Type: "
  ++ (email_sequence.sequence_type.getD "sales")
  ++ "\n\nTiming:\n- Email 1: Immediately after signup\n"
  ++ String.intercalate "\n" ((List.range (email_sequence.emails.length - 1)).map (fun i =>
       "- Email " ++ toString (i + 2) ++ ": "
       ++ ((email_sequence.timing.lookup (toString (i + 2))).getD ("Day " ++ toString (i + 1)))))
  ++ "\n\nPurpose:\n"
  ++ (email_sequence.purpose.getD "Nurture leads and promote products")
  ++ "\n\nInstructions:\n1. Import these emails into your email marketing platform\n2. Set up the automation sequence with the timing above\n3. Customize sender name and contact information before sending\n                "

/-- `create_zip_export(project)` (src/funnel_generator.py, lines
170-268), returned as the ordered list of `(archive entry name, content)`
pairs written with `zipf.writestr`.  `renderMain`/`renderUpsell`/
`renderDownsell` are the fallible Jinja template renders consumed by
`create_html_page` (`none` models a template fault for that page).
`now` stands for the wall clock read inside `generate_documentation`.
When the project has no (or empty) funnel data the function raises
`ValueError("No funnel data available for export")` and the outer
`except` re-raises it (lines 197-198, 266-268), modelled as
`Except.error`; every other path returns the complete archive. -/
def create_zip_export (renderMain : MainPage → Option String)
    (renderUpsell renderDownsell : Offer → Option String)
    (project : Project) (now : String) :
    Except String (List (String × String)) :=
  match project.funnel_data with
  | none => Except.error "No funnel data available for export"
  | some funnel_data =>
      let main_page := funnel_data.main_page
      let headEntries : List (String × String) :=
        [("index.html",
          create_html_page (renderMain main_page) (some main_page.headline) none none),
         ("style.css", generate_css),
         ("funnel.js", generate_js funnel_data)]
      let upsellEntries : List (String × String) := funnel_data.upsells.enum.map (fun p =>
        ("upsell_" ++ toString (p.1 + 1) ++ ".html",
         create_html_page (renderUpsell p.2) (some p.2.headline)
           (some p.2.description) (some p.2.cta_text)))
      let downsellEntries : List (String × String) := funnel_data.downsells.enum.map (fun p =>
        ("downsell_" ++ toString (p.1 + 1) ++ ".html",
         create_html_page (renderDownsell p.2) (some p.2.headline)
           (some p.2.description) (some p.2.cta_text)))
      let emailEntries : List (String × String) :=
        match project.email_sequence with
        | some email_sequence =>
            email_sequence.emails.enum.map (fun p =>
              ("emails/email_" ++ toString (p.1 + 1) ++ ".txt", email_txt p.1 p.2))
            ++ [("emails/README.txt", email_docs email_sequence)]
        | none => []
      Except.ok (headEntries ++ upsellEntries ++ downsellEntries
        ++ [("thank_you.html", create_thank_you_page funnel_data)]
        ++ emailEntries
        ++ [("README.txt", generate_documentation project funnel_data now)])

/-- The archive layout described by the spec (section 6, "Archive
format"); this definition follows the spec's words and is compared with
the entry names actually produced by `create_zip_export`. -/
def archiveLayoutSpec (numUpsells numDownsells : Nat)
    (emailCount : Option Nat) : List String :=
  ["index.html", "style.css", "funnel.js"]
  ++ (List.range numUpsells).map (fun i => "upsell_" ++ toString (i + 1) ++ ".html")
  ++ (List.range numDownsells).map (fun i => "downsell_" ++ toString (i + 1) ++ ".html")
  ++ ["thank_you.html"]
  ++ (match emailCount with
      | some n =>
          (List.range n).map (fun i => "emails/email_" ++ toString (i + 1) ++ ".txt")
          ++ ["emails/README.txt"]
      | none => [])
  ++ ["README.txt"]

theorem map_fst_enum_pairs {α β γ : Type} (l : List α) (f : Nat → β)
    (g : Nat × α → γ) :
    ((l.enum.map (fun p => (f p.1, g p))).map Prod.fst) = (List.range l.length).map f := by
  rw [List.map_map]
  have h : (Prod.fst ∘ fun p : Nat × α => (f p.1, g p)) = (f ∘ Prod.fst) := rfl
  rw [h, ← List.map_map, List.enum_map_fst]

/-- Helper: for any project carrying funnel data, `create_zip_export`
succeeds and the archive entry names are exactly the spec layout. -/
theorem zip_export_names_of_funnel
    (rm : MainPage → Option String) (ru rd : Offer → Option String)
    (project : Project) (now : String) (fd : FunnelData)
    (hfd : project.funnel_data = some fd) :
    ∃ entries, create_zip_export rm ru rd project now = Except.ok entries ∧
      entries.map Prod.fst =
        archiveLayoutSpec fd.upsells.length fd.downsells.length
          (project.email_sequence.map (fun sq => sq.emails.length)) := by
  obtain ⟨pid, pname, purl, pfd, pes⟩ := project
  simp only at hfd
  subst hfd
  have hup : (List.map (fun p : Nat × Offer =>
      ("upsell_" ++ toString (p.1 + 1) ++ ".html",
        create_html_page (ru p.2) (some p.2.headline) (some p.2.description)
          (some p.2.cta_text))) fd.upsells.enum).map Prod.fst
      = (List.range fd.upsells.length).map
          (fun i => "upsell_" ++ toString (i + 1) ++ ".html") :=
    map_fst_enum_pairs fd.upsells
      (fun i => "upsell_" ++ toString (i + 1) ++ ".html")
      (fun p => create_html_page (ru p.2) (some p.2.headline)
        (some p.2.description) (some p.2.cta_text))
  have hdown : (List.map (fun p : Nat × Offer =>
      ("downsell_" ++ toString (p.1 + 1) ++ ".html",
        create_html_page (rd p.2) (some p.2.headline) (some p.2.description)
          (some p.2.cta_text))) fd.downsells.enum).map Prod.fst
      = (List.range fd.downsells.length).map
          (fun i => "downsell_" ++ toString (i + 1) ++ ".html") :=
    map_fst_enum_pairs fd.downsells
      (fun i => "downsell_" ++ toString (i + 1) ++ ".html")
      (fun p => create_html_page (rd p.2) (some p.2.headline)
        (some p.2.description) (some p.2.cta_text))
  cases pes with
  | none =>
      refine ⟨_, rfl, ?_⟩
      simp only [create_zip_export, archiveLayoutSpec, List.map_append,
        List.map_cons, List.map_nil]
      rw [hup, hdown]
      rfl
  | some sq =>
      have hem : (List.map (fun p : Nat × EmailRec =>
          ("emails/email_" ++ toString (p.1 + 1) ++ ".txt", email_txt p.1 p.2))
          sq.emails.enum).map Prod.fst
          = (List.range sq.emails.length).map
              (fun i => "emails/email_" ++ toString (i + 1) ++ ".txt") :=
        map_fst_enum_pairs sq.emails
          (fun i => "emails/email_" ++ toString (i + 1) ++ ".txt")
          (fun p => email_txt p.1 p.2)
      refine ⟨_, rfl, ?_⟩
      simp only [create_zip_export, archiveLayoutSpec, List.map_append,
        List.map_cons, List.map_nil]
      rw [hup, hdown, hem]
      rfl

/-- C2: `create_zip_export` propagates a failure exactly when the project
has no funnel data; for every project with funnel data it returns the
complete archive — whatever per-page template faults the renderers
produce, the fallback artifacts keep every expected entry name present. -/
theorem create_zip_export_total_with_funnel_data
    (rm : MainPage → Option String) (ru rd : Offer → Option String)
    (project : Project) (now : String) :
    ((∃ e, create_zip_export rm ru rd project now = Except.error e) ↔
      project.funnel_data = none) ∧
    (∀ fd, project.funnel_data = some fd →
      ∃ entries, create_zip_export rm ru rd project now = Except.ok entries ∧
        entries.map Prod.fst =
          archiveLayoutSpec fd.upsells.length fd.downsells.length
            (project.email_sequence.map (fun sq => sq.emails.length))) := by
  constructor
  · obtain ⟨pid, pname, purl, pfd, pes⟩ := project
    cases pfd with
    | none => exact ⟨fun _ => rfl, fun _ => ⟨_, rfl⟩⟩
    | some fd =>
        constructor
        · rintro ⟨e, he⟩
          exact absurd he (by cases pes <;> simp [create_zip_export])
        · intro h
          exact absurd h (by simp)
  · intro fd hfd
    exact zip_export_names_of_funnel rm ru rd project now fd hfd

/-- Witness for `create_zip_export_total_with_funnel_data` (its second
conjunct has a hypothesis) at a concrete project with funnel data. -/
theorem create_zip_export_total_with_funnel_data_witness :
    ∃ entries,
      create_zip_export (fun _ => none) (fun _ => none) (fun _ => none)
        { funnel_data := some {}, email_sequence := none } "now" = Except.ok entries ∧
      entries.map Prod.fst = archiveLayoutSpec 0 0 none :=
  ((create_zip_export_total_with_funnel_data (fun _ => none) (fun _ => none)
      (fun _ => none) { funnel_data := some {}, email_sequence := none } "now").2
    {} rfl)

/-- C7: for a project whose funnel data has exactly 2 upsells and 2
downsells and whose email sequence has exactly 3 emails, the archive
contains exactly the 13 documented entries, in writing order. -/
theorem create_zip_export_names_2_2_3
    (rm : MainPage → Option String) (ru rd : Offer → Option String)
    (pid : Nat) (pname purl now : String) (mp : MainPage)
    (u₁ u₂ d₁ d₂ : Offer) (fl : List FlowNode) (cz : Customizations)
    (er sn st pp : Option String) (ne : Nat) (bn : String)
    (tm : List (String × String)) (e₁ e₂ e₃ : EmailRec) :
    ∃ entries,
      create_zip_export rm ru rd
        { id := pid,
          name := pname,
          url := purl,
          funnel_data := some
            { main_page := mp,
              upsells := [u₁, u₂],
              downsells := [d₁, d₂],
              funnel_flow := fl,
              customizations := cz },
          email_sequence := some
            { error := er,
              sequence_name := sn,
              sequence_type := st,
              purpose := pp,
              num_emails := ne,
              brand_name := bn,
              timing := tm,
              emails := [e₁, e₂, e₃] } } now
        = Except.ok entries ∧
      entries.map Prod.fst =
        ["index.html", "style.css", "funnel.js",
         "upsell_1.html", "upsell_2.html",
         "downsell_1.html", "downsell_2.html",
         "thank_you.html",
         "emails/email_1.txt", "emails/email_2.txt", "emails/email_3.txt",
         "emails/README.txt", "README.txt"] := by
  obtain ⟨entries, he, hn⟩ := zip_export_names_of_funnel rm ru rd
    { id := pid,
      name := pname,
      url := purl,
      funnel_data := some
        { main_page := mp,
          upsells := [u₁, u₂],
          downsells := [d₁, d₂],
          funnel_flow := fl,
          customizations := cz },
      email_sequence := some
        { error := er,
          sequence_name := sn,
          sequence_type := st,
          purpose := pp,
          num_emails := ne,
          brand_name := bn,
          timing := tm,
          emails := [e₁, e₂, e₃] } } now
    { main_page := mp,
      upsells := [u₁, u₂],
      downsells := [d₁, d₂],
      funnel_flow := fl,
      customizations := cz } rfl
  refine ⟨entries, he, ?_⟩
  rw [hn]
  show archiveLayoutSpec 2 2 (some 3) = _
  decide

/-- C8 counterexample: the content actually written to
`emails/email_1.txt` carries a leading newline and a trailing newline
plus 20 spaces of indentation, so it is not exactly
`Subject: <subject>\n\n<body>`. -/
theorem email_entry_content_counterexample :
    ∃ entries,
      create_zip_export (fun _ => none) (fun _ => none) (fun _ => none)
        { funnel_data := some {},
          email_sequence := some { emails := [{ subject := some "A", body := some "B" }] } }
        "2025-01-01 00:00" = Except.ok entries ∧
      entries.lookup "emails/email_1.txt"
        = some "\nSubject: A\n\nB\n                    " ∧
      ("\nSubject: A\n\nB\n                    " : String) ≠ "Subject: A\n\nB" :=
  ⟨_, rfl, rfl, by decide⟩

/-- C8 (amended): each archive entry `emails/email_{i+1}.txt` contains
exactly a newline, then `Subject: ` and the email's subject (defaulting
to `Email {i+1}`), then two newlines, then the email's body (defaulting
to `Email content`), then a newline and twenty spaces — the leading
newline and trailing indentation of the source's triple-quoted f-string
are part of the content. -/
theorem create_zip_export_email_entry_content
    (rm : MainPage → Option String) (ru rd : Offer → Option String)
    (project : Project) (now : String) (fd : FunnelData)
    (sq : EmailSequenceData) (hfd : project.funnel_data = some fd)
    (hsq : project.email_sequence = some sq)
    (i : Nat) (hi : i < sq.emails.length) :
    ∃ entries, create_zip_export rm ru rd project now = Except.ok entries ∧
      ("emails/email_" ++ toString (i + 1) ++ ".txt",
        "\nSubject: " ++ ((sq.emails.get ⟨i, hi⟩).subject.getD ("Email " ++ toString (i + 1)))
        ++ "\n\n" ++ ((sq.emails.get ⟨i, hi⟩).body.getD "Email content")
        ++ "\n                    ") ∈ entries := by
  obtain ⟨pid, pname, purl, pfd, pes⟩ := project
  simp only at hfd hsq
  subst hfd; subst hsq
  refine ⟨_, rfl, ?_⟩
  simp only [create_zip_export]
  refine List.mem_append_left _ (List.mem_append_right _ ?_)
  refine List.mem_append_left _ ?_
  have hi2 : i < sq.emails.enum.length := by simpa [List.enum_length] using hi
  refine List.mem_map.2 ⟨sq.emails.enum[i], List.getElem_mem _, ?_⟩
  rw [List.getElem_enum]
  rfl

/-- Witness for `create_zip_export_email_entry_content` at a concrete
project with one email. -/
theorem create_zip_export_email_entry_content_witness :
    ∃ entries,
      create_zip_export (fun _ => none) (fun _ => none) (fun _ => none)
        { funnel_data := some {},
          email_sequence := some { emails := [{ subject := some "A", body := some "B" }] } }
        "now" = Except.ok entries ∧
      ("emails/email_" ++ toString (0 + 1) ++ ".txt",
        "\nSubject: "
        ++ ((([{ subject := some "A", body := some "B" }] : List EmailRec).get
              ⟨0, by decide⟩).subject.getD ("Email " ++ toString (0 + 1)))
        ++ "\n\n"
        ++ ((([{ subject := some "A", body := some "B" }] : List EmailRec).get
              ⟨0, by decide⟩).body.getD "Email content")
        ++ "\n                    ") ∈ entries :=
  create_zip_export_email_entry_content (fun _ => none) (fun _ => none) (fun _ => none)
    { funnel_data := some {},
      email_sequence := some { emails := [{ subject := some "A", body := some "B" }] } }
    "now" {} { emails := [{ subject := some "A", body := some "B" }] } rfl rfl 0 (by decide)

/-- Witness for `design_funnel_flow_zero_upsells_dangling` at a concrete
downsell list. -/
theorem design_funnel_flow_zero_upsells_dangling_witness :
    ((design_funnel_flow wMainPage [] [wOffer]).map FlowNode.accept_action).head?
        = some "to_upsell_1" ∧
    "upsell_1" ∉ (design_funnel_flow wMainPage [] [wOffer]).map FlowNode.id :=
  design_funnel_flow_zero_upsells_dangling wMainPage [wOffer]

/-- Witness for `generate_email_sequence_fallback` at a concrete fault. -/
theorem generate_email_sequence_fallback_witness :
    ∃ r, generate_email_sequence (some {}) {} (Except.error "net down") = Except.ok r ∧
      r.num_emails = 3 ∧ r.error = some "net down" :=
  generate_email_sequence_fallback {} {} "net down"

/-- Witness for `generate_email_sequence_handler_not_total` at concrete
inputs. -/
theorem generate_email_sequence_handler_not_total_witness :
    (∃ msg, generate_email_sequence none {} (Except.ok {}) = Except.error msg) ∧
    (∃ r, generate_email_sequence (some {}) {} (Except.error "boom") = Except.ok r ∧
      r.num_emails = 3 ∧ r.error = some "boom") :=
  generate_email_sequence_handler_not_total {} (Except.ok {}) {} "boom"

/-- Witness for `create_zip_export_names_2_2_3` at a concrete project. -/
theorem create_zip_export_names_2_2_3_witness :
    ∃ entries,
      create_zip_export (fun _ => none) (fun _ => none) (fun _ => none)
        { id := 1,
          name := "P",
          url := "http://x",
          funnel_data := some
            { main_page := {},
              upsells := [wOffer, wOffer],
              downsells := [wOffer, wOffer],
              funnel_flow := [],
              customizations := {} },
          email_sequence := some
            { error := none,
              sequence_name := none,
              sequence_type := none,
              purpose := none,
              num_emails := 3,
              brand_name := "B",
              timing := [],
              emails := [{}, {}, {}] } } "now"
        = Except.ok entries ∧
      entries.map Prod.fst =
        ["index.html", "style.css", "funnel.js",
         "upsell_1.html", "upsell_2.html",
         "downsell_1.html", "downsell_2.html",
         "thank_you.html",
         "emails/email_1.txt", "emails/email_2.txt", "emails/email_3.txt",
         "emails/README.txt", "README.txt"] :=
  create_zip_export_names_2_2_3 (fun _ => none) (fun _ => none) (fun _ => none)
    1 "P" "http://x" "now" {} wOffer wOffer wOffer wOffer [] {}
    none none none none 3 "B" [] {} {} {}

end AffiliateHijacker
